import Mathlib

/-
  Shallow embedding of src/server/config.ts (azure-iot-device-management).

  The file models the configuration resolver: the `Config` value class, the
  process-wide singleton (`Config.instance`, modelled as explicit state of type
  `ConfigState` threaded through the operations), the three resolution
  strategies (`initializeFromFile`, `initializeFromEnvironment`,
  `initializeFromConfigService`) and the source-selection dispatch
  (`initialize`).

  JavaScript conventions captured explicitly:
  - optional / possibly-`undefined` string values are `Option String`;
  - JS truthiness on such values (`undefined` and `""` are falsy, every other
    string is truthy) is `truthy`;
  - the defaulting idiom `v || d` is `jsOr`;
  - each `throw new Error(msg)` site becomes a constructor of an error type
    carrying enough data to reproduce `msg` (see `AttemptError.message`);
  - the two `getHal` network calls of one retry-loop iteration are an
    `AttemptWorld`: the outcome of fetching the discovery resource, and a
    function giving the outcome of fetching any follow-up URI.  The infinite
    retry loop consumes one `AttemptWorld` per iteration from a stream
    `Nat → AttemptWorld`.
-/

/-- JS truthiness of a string-or-undefined value: `undefined` and the empty
string are falsy. -/
def truthy : Option String → Bool
  | none => false
  | some s => s ≠ ""

/-- The JS defaulting idiom `v || d` on a string-or-undefined value. -/
def jsOr (v : Option String) (d : String) : String :=
  match v with
  | none => d
  | some s => if s = "" then d else s

/-- Is `pat` a contiguous sub-sequence of `l`?  (Used to model regex search.) -/
def hasSubPattern (pat : List Char) : List Char → Bool
  | [] => List.isPrefixOf pat []
  | c :: rest => List.isPrefixOf pat (c :: rest) || hasSubPattern pat rest

/-- The test `/(^|;)HostName=/i.test(s)` from `initializeFromFile`
(src/server/config.ts line 130): case-insensitively, `hostname=` at the start
of the string or immediately after a semicolon. -/
def testHostName (s : String) : Bool :=
  let t := s.data.map Char.toLower
  List.isPrefixOf "hostname=".data t || hasSubPattern ";hostname=".data t

/-- Auth settings block of the `Config` class (optional constructor argument). -/
structure AuthSettings where
  loginUrl : String
  mongoUri : String
  sessionSecret : String
  deriving DecidableEq, Repr

/-- The `Config` value class (src/server/config.ts lines 8-38). -/
structure Config where
  IotHubConnectionString : String
  ConsoleReporting : String
  LogLevel : String
  Port : String
  Auth : Option AuthSettings
  deriving DecidableEq, Repr

/-- The process-wide singleton `Config.instance`, `null` before any
successful resolution. -/
abbrev ConfigState := Option Config

/-- Errors thrown by the resolver (each constructor is one `throw` site
outside the retry loop; the source throws plain `Error`s whose messages the
spec names `NotInitializedError`, `MissingConfigFileError`,
`InvalidConnectionStringError`, `ConfigServiceUnavailableError`). -/
inductive ConfigError
  | notInitialized
  | missingConfigFile
  | invalidConnectionString
  | serviceUnavailable (msg : String)
  deriving DecidableEq, Repr

/-- One link of a HAL `_links` collection. -/
structure HalLink where
  href : String
  deriving DecidableEq, Repr

/-- The discovery resource fetched at `configUrl + '/api/discovery'`; its
`_links` collection is an association list keyed by relation name. -/
structure DiscoveryResource where
  links : List (String × HalLink)

/-- The nested `device-management` settings object; its two fields may be
absent or empty (both falsy in JS, both rejected by the source). -/
structure DMSettings where
  logLevel : Option String
  consoleReporting : Option String

/-- The settings resource (interface `ConfigSettings` in the source); every
field may be absent or empty in the wire document. -/
structure ConfigSettings where
  iotHubConnStr : Option String
  loginUrl : Option String
  mongoUri : Option String
  sessionSecret : Option String
  deviceManagement : Option DMSettings

/-- The network outcomes available to ONE iteration of the retry loop:
the result of the `getHal` of the discovery resource, and the result of a
`getHal` of any follow-up URI (the loop uses it for the settings resource).
A `.error` models a rejected promise (network failure / malformed response),
carrying its description. -/
structure AttemptWorld where
  discovery : Except String DiscoveryResource
  fetchSettings : String → Except String ConfigSettings

/-- Per-attempt failures inside the retry loop (the spec's
`DiscoveryProtocolError` is `noSettingsLink`; its `MissingSettingError` is
`missingSetting`, which the source also uses for an absent or incomplete
`device-management` object). -/
inductive AttemptError
  | fetchFailed (msg : String)
  | noSettingsLink
  | missingSetting (field : String)
  deriving DecidableEq, Repr

/-- The `err` message string of each per-attempt `throw` site
(src/server/config.ts lines 81, 85-88, 92). -/
def AttemptError.message : AttemptError → String
  | .fetchFailed m => m
  | .noSettingsLink => "Config service does not provide settings:list"
  | .missingSetting f => "Config service does not provide setting \"" ++ f ++ "\""

namespace Config

/-- `Config.get` (src/server/config.ts lines 46-52): throws when the
singleton is still `null`, otherwise returns it.  Pure: it takes the state
and does not produce a new one. -/
def get (st : ConfigState) : Except ConfigError Config :=
  match st with
  | none => .error .notInitialized
  | some c => .ok c

/-- The document shape of `user-config.json` as destructured by
`initializeFromFile`; the three tunables may be absent. -/
structure UserConfig where
  IOTHUB_CONNECTION_STRING : String
  CONSOLE_REPORTING : Option String
  LOG_LEVEL : Option String
  PORT : Option String

/-- `Config.initializeFromFile` (src/server/config.ts lines 117-140).
`file` is `none` when `fs.existsSync` fails, otherwise the loaded document.
Returns the thrown-or-returned result together with the new singleton state:
the singleton is assigned only at the success `return`. -/
def initializeFromFile (file : Option UserConfig) (st : ConfigState) :
    Except ConfigError Config × ConfigState :=
  match file with
  | none => (.error .missingConfigFile, st)
  | some userConfig =>
    if testHostName userConfig.IOTHUB_CONNECTION_STRING then
      let c : Config :=
        { IotHubConnectionString := userConfig.IOTHUB_CONNECTION_STRING
          ConsoleReporting := jsOr userConfig.CONSOLE_REPORTING "both"
          LogLevel := jsOr userConfig.LOG_LEVEL "trace"
          Port := jsOr userConfig.PORT "3003"
          Auth := none }
      (.ok c, some c)
    else
      (.error .invalidConnectionString, st)

/-- `Config.initializeFromEnvironment` (src/server/config.ts lines 142-148):
constructs the `Config` directly from `process.env.IOTHUB_CONNECTION_STRING`
(passed verbatim, never inspected) and `process.env.PORT || '3003'`. -/
def initializeFromEnvironment (iotHubConnStr : String) (port : Option String)
    (_st : ConfigState) : Except ConfigError Config × ConfigState :=
  let c : Config :=
    { IotHubConnectionString := iotHubConnStr
      ConsoleReporting := "both"
      LogLevel := "trace"
      Port := jsOr port "3003"
      Auth := none }
  (.ok c, some c)

/-- The validation-and-construction tail of one retry-loop iteration
(src/server/config.ts lines 85-103), applied once the settings resource has
been fetched: the four falsiness checks in source order, the
`device-management` check, then `new Config(...)` with the caller-supplied
`port` and the auth block from the settings resource. -/
def validateAndBuild (port : String) (configSettings : ConfigSettings) :
    Except AttemptError Config :=
  if !truthy configSettings.iotHubConnStr then .error (.missingSetting "iotHubConnStr")
  else if !truthy configSettings.loginUrl then .error (.missingSetting "loginUrl")
  else if !truthy configSettings.mongoUri then .error (.missingSetting "mongoUri")
  else if !truthy configSettings.sessionSecret then .error (.missingSetting "sessionSecret")
  else
    match configSettings.deviceManagement with
    | none => .error (.missingSetting "device-management")
    | some dmSettings =>
      if !truthy dmSettings.consoleReporting || !truthy dmSettings.logLevel then
        .error (.missingSetting "device-management")
      else
        .ok { IotHubConnectionString := configSettings.iotHubConnStr.getD ""
              ConsoleReporting := dmSettings.consoleReporting.getD ""
              LogLevel := dmSettings.logLevel.getD ""
              Port := port
              Auth := some { loginUrl := configSettings.loginUrl.getD ""
                             mongoUri := configSettings.mongoUri.getD ""
                             sessionSecret := configSettings.sessionSecret.getD "" } }

/-- The `try` block of one retry-loop iteration (src/server/config.ts lines
79-103): fetch the discovery resource, look up the `settings:list` relation,
fetch the settings resource at `configUrl + link.href`, then validate and
build.  Every failure is one `AttemptError`, uniformly handled by the
`catch`. -/
def oneAttempt (configUrl port : String) (w : AttemptWorld) :
    Except AttemptError Config :=
  match w.discovery with
  | .error err => .error (.fetchFailed err)
  | .ok discovery =>
    match discovery.links.lookup "settings:list" with
    | none => .error .noSettingsLink
    | some settingsLink =>
      match w.fetchSettings (configUrl ++ settingsLink.href) with
      | .error err => .error (.fetchFailed err)
      | .ok configSettings => validateAndBuild port configSettings

/-- `delayBeforeRetrySeconds` (src/server/config.ts line 73). -/
def delayBeforeRetrySeconds : Nat := 5

/-- Initial value of `numRetries` (src/server/config.ts line 74). -/
def numRetriesInit : Nat := 60

/-- Outcome of a run of the retry loop: the final result, the number of
attempts (loop iterations) performed, and the number of
`delayBeforeRetrySeconds`-second waits performed between attempts. -/
structure ServiceRun where
  outcome : Except AttemptError Config
  attempts : Nat
  waits : Nat
  deriving Repr

/-- The `while (true)` retry loop of `initializeFromConfigService`
(src/server/config.ts lines 75-114), as a function of the attempt stream `w`,
the index `k` of the current attempt and the current value of `numRetries`.
On failure the source decrements `numRetries`; if it hits `0` the wrapped
fatal error is thrown, otherwise the loop waits `delayBeforeRetrySeconds`
seconds and iterates.  Budget `0` never arises from the entry point (which
starts at `numRetriesInit = 60` and stops at `1`); its failure row is given
the same terminal reading as budget `1` to keep the function total. -/
def serviceLoop (configUrl port : String) (w : Nat → AttemptWorld) :
    Nat → Nat → ServiceRun
  | k, 0 =>
    match oneAttempt configUrl port (w k) with
    | .ok c => { outcome := .ok c, attempts := 1, waits := 0 }
    | .error e => { outcome := .error e, attempts := 1, waits := 0 }
  | k, 1 =>
    match oneAttempt configUrl port (w k) with
    | .ok c => { outcome := .ok c, attempts := 1, waits := 0 }
    | .error e => { outcome := .error e, attempts := 1, waits := 0 }
  | k, n + 2 =>
    match oneAttempt configUrl port (w k) with
    | .ok c => { outcome := .ok c, attempts := 1, waits := 0 }
    | .error _ =>
      let rest := serviceLoop configUrl port w (k + 1) (n + 1)
      { outcome := rest.outcome, attempts := rest.attempts + 1, waits := rest.waits + 1 }

/-- `Config.initializeFromConfigService` (src/server/config.ts lines 72-115):
run the retry loop from attempt `0` with budget `numRetriesInit`; on success
assign the singleton, on exhaustion throw
`'Could not initialize from Config Service: ' + err` with the last attempt's
error, leaving the singleton untouched.  The result also reports the
attempt and wait counts of the run. -/
def initializeFromConfigService (configUrl port : String) (w : Nat → AttemptWorld)
    (st : ConfigState) : (Except ConfigError Config × ConfigState) × Nat × Nat :=
  let run := serviceLoop configUrl port w 0 numRetriesInit
  match run.outcome with
  | .ok c => ((.ok c, some c), run.attempts, run.waits)
  | .error e =>
    ((.error (.serviceUnavailable
        ("Could not initialize from Config Service: " ++ e.message)), st),
      run.attempts, run.waits)

/-- The three resolution strategies of the spec. -/
inductive Strategy
  | fromFile
  | fromEnvironment
  | fromConfigService
  deriving DecidableEq, Repr

/-- The dispatch of `Config.initialize` (src/server/config.ts lines 60-70),
a pure function of `process.env.CONFIG_URL` and `process.env.PORT`: which of
the three strategies is invoked.  (Named `initializeDispatch` because
`initialize` is reserved in Lean.) -/
def initializeDispatch (configUrl port : Option String) : Strategy :=
  if !truthy configUrl && !truthy port then .fromFile
  else if !truthy configUrl then .fromEnvironment
  else .fromConfigService

end Config

/-- A world whose discovery resource has no links at all: every attempt
fails with `noSettingsLink` (a concrete instance used by witnesses). -/
def noLinkWorld : AttemptWorld :=
  { discovery := Except.ok ⟨[]⟩, fetchSettings := fun _ => Except.error "x" }

/-- A world where both fetches succeed and every setting is present
(a concrete instance used by witnesses). -/
def okWorld : AttemptWorld :=
  { discovery := Except.ok ⟨[("settings:list", ⟨"/s"⟩)]⟩
    fetchSettings := fun _ =>
      Except.ok ⟨some "H", some "L", some "M", some "S", some ⟨some "info", some "server"⟩⟩ }

/-! ## Shared lemmas about the embedded operations -/

theorem jsOr_none (d : String) : jsOr none d = d := rfl

theorem jsOr_empty (d : String) : jsOr (some "") d = d := by simp [jsOr]

theorem jsOr_some (s d : String) (h : s ≠ "") : jsOr (some s) d = s := by simp [jsOr, h]

theorem initializeFromFile_some_ok (uc : Config.UserConfig) (st : ConfigState)
    (h : testHostName uc.IOTHUB_CONNECTION_STRING = true) :
    Config.initializeFromFile (some uc) st =
      (Except.ok ⟨uc.IOTHUB_CONNECTION_STRING, jsOr uc.CONSOLE_REPORTING "both",
          jsOr uc.LOG_LEVEL "trace", jsOr uc.PORT "3003", none⟩,
        some ⟨uc.IOTHUB_CONNECTION_STRING, jsOr uc.CONSOLE_REPORTING "both",
          jsOr uc.LOG_LEVEL "trace", jsOr uc.PORT "3003", none⟩) := by
  simp [Config.initializeFromFile, h]

theorem initializeFromFile_some_err (uc : Config.UserConfig) (st : ConfigState)
    (h : testHostName uc.IOTHUB_CONNECTION_STRING = false) :
    Config.initializeFromFile (some uc) st =
      (Except.error ConfigError.invalidConnectionString, st) := by
  simp [Config.initializeFromFile, h]

theorem serviceLoop_ok (configUrl port : String) (w : Nat → AttemptWorld) (k n : Nat)
    (c : Config) (h : Config.oneAttempt configUrl port (w k) = Except.ok c) :
    Config.serviceLoop configUrl port w k n =
      { outcome := Except.ok c, attempts := 1, waits := 0 } := by
  match n with
  | 0 => simp [Config.serviceLoop, h]
  | 1 => simp [Config.serviceLoop, h]
  | m + 2 => simp [Config.serviceLoop, h]

theorem serviceLoop_err_last (configUrl port : String) (w : Nat → AttemptWorld) (k : Nat)
    (e : AttemptError) (h : Config.oneAttempt configUrl port (w k) = Except.error e) :
    Config.serviceLoop configUrl port w k 1 =
      { outcome := Except.error e, attempts := 1, waits := 0 } := by
  simp [Config.serviceLoop, h]

theorem serviceLoop_err_step (configUrl port : String) (w : Nat → AttemptWorld) (k n : Nat)
    (e : AttemptError) (h : Config.oneAttempt configUrl port (w k) = Except.error e) :
    Config.serviceLoop configUrl port w k (n + 2) =
      { outcome := (Config.serviceLoop configUrl port w (k + 1) (n + 1)).outcome
        attempts := (Config.serviceLoop configUrl port w (k + 1) (n + 1)).attempts + 1
        waits := (Config.serviceLoop configUrl port w (k + 1) (n + 1)).waits + 1 } := by
  simp [Config.serviceLoop, h]

theorem serviceLoop_allFail (configUrl port : String) (w : Nat → AttemptWorld) :
    ∀ n k, (∀ j, j < n + 1 → ∃ e, Config.oneAttempt configUrl port (w (k + j)) = Except.error e) →
      ∃ e, Config.oneAttempt configUrl port (w (k + n)) = Except.error e ∧
        Config.serviceLoop configUrl port w k (n + 1) =
          { outcome := Except.error e, attempts := n + 1, waits := n } := by
  intro n
  induction n with
  | zero =>
    intro k h
    obtain ⟨e, he⟩ := h 0 (by omega)
    exact ⟨e, he, serviceLoop_err_last configUrl port w k e he⟩
  | succ m ih =>
    intro k h
    obtain ⟨e0, he0⟩ := h 0 (by omega)
    obtain ⟨e, he, hrest⟩ := ih (k + 1) (fun j hj => by
      have := h (j + 1) (by omega)
      simpa [Nat.add_assoc, Nat.add_comm 1 j] using this)
    refine ⟨e, by simpa [Nat.add_assoc, Nat.add_comm 1 m] using he, ?_⟩
    rw [serviceLoop_err_step configUrl port w k m e0 he0, hrest]

theorem serviceLoop_frame (configUrl port : String) (w w' : Nat → AttemptWorld) :
    ∀ n k, (∀ j, j < max n 1 → w' (k + j) = w (k + j)) →
      Config.serviceLoop configUrl port w' k n = Config.serviceLoop configUrl port w k n := by
  intro n
  induction n using Nat.strong_induction_on with
  | _ n ih =>
    intro k h
    have hk : w' k = w k := by simpa using h 0 (by omega)
    match n with
    | 0 => simp [Config.serviceLoop, hk]
    | 1 => simp [Config.serviceLoop, hk]
    | m + 2 =>
      have hrest := ih (m + 1) (by omega) (k + 1) (fun j hj => by
        have := h (j + 1) (by omega)
        simpa [Nat.add_assoc, Nat.add_comm 1 j] using this)
      simp only [Config.serviceLoop, hk, hrest]

/-! ## Claim theorems -/

/-- Claim C1: when every fetch/validate attempt fails, `initializeFromConfigService`
makes exactly 60 attempts with a `delayBeforeRetrySeconds = 5`-second wait between
consecutive attempts (59 waits), fails with the `ConfigServiceUnavailableError`
message wrapping the last underlying failure's description, and never evaluates a
61st attempt (the run only depends on attempts `0`–`59` of the stream). -/
theorem discovery_exhausts_after_60_attempts
    (configUrl port : String) (w : Nat → AttemptWorld) (st : ConfigState)
    (hfail : ∀ k, k < 60 → ∃ e, Config.oneAttempt configUrl port (w k) = Except.error e) :
    (∃ e, Config.oneAttempt configUrl port (w 59) = Except.error e ∧
      (Config.initializeFromConfigService configUrl port w st).1.1 =
        Except.error (ConfigError.serviceUnavailable
          ("Could not initialize from Config Service: " ++ e.message))) ∧
    (Config.initializeFromConfigService configUrl port w st).2.1 = 60 ∧
    (Config.initializeFromConfigService configUrl port w st).2.2 = 59 ∧
    Config.delayBeforeRetrySeconds = 5 ∧
    (∀ w' : Nat → AttemptWorld, (∀ k, k < 60 → w' k = w k) →
      Config.initializeFromConfigService configUrl port w' st =
        Config.initializeFromConfigService configUrl port w st) := by
  obtain ⟨e, he, hrun⟩ := serviceLoop_allFail configUrl port w 59 0 (fun j hj => by
    simpa using hfail j (by omega))
  norm_num at he hrun
  refine ⟨⟨e, he, ?_⟩, ?_, ?_, rfl, ?_⟩
  · simp [Config.initializeFromConfigService, Config.numRetriesInit, hrun]
  · simp [Config.initializeFromConfigService, Config.numRetriesInit, hrun]
  · simp [Config.initializeFromConfigService, Config.numRetriesInit, hrun]
  · intro w' hagree
    have : Config.serviceLoop configUrl port w' 0 60 = Config.serviceLoop configUrl port w 0 60 :=
      serviceLoop_frame configUrl port w w' 60 0 (fun j hj => by
        simpa using hagree j (by omega))
    simp [Config.initializeFromConfigService, Config.numRetriesInit, this]

theorem discovery_exhausts_after_60_attempts_witness :
    (Config.initializeFromConfigService "u" "p" (fun _ => noLinkWorld) none).2.1 = 60 :=
  (discovery_exhausts_after_60_attempts "u" "p" (fun _ => noLinkWorld)
    none (fun _ _ => ⟨AttemptError.noSettingsLink, rfl⟩)).2.1

/-- Claim C2: the source-selection table of `initialize`: discovery URL and
port both absent selects resolve-from-file; URL absent with port present
selects resolve-from-environment; URL present selects
resolve-from-discovery-service regardless of the port ("present" is JS
truthiness of the environment variable: set and non-empty). -/
theorem initialize_source_selection :
    ∀ configUrl port : Option String,
      (truthy configUrl = false → truthy port = false →
        Config.initializeDispatch configUrl port = Config.Strategy.fromFile) ∧
      (truthy configUrl = false → truthy port = true →
        Config.initializeDispatch configUrl port = Config.Strategy.fromEnvironment) ∧
      (truthy configUrl = true →
        Config.initializeDispatch configUrl port = Config.Strategy.fromConfigService) := by
  intro configUrl port
  refine ⟨?_, ?_, ?_⟩ <;> intros <;> simp_all [Config.initializeDispatch]

theorem initialize_source_selection_witness :
    Config.initializeDispatch none none = Config.Strategy.fromFile ∧
    Config.initializeDispatch none (some "80") = Config.Strategy.fromEnvironment ∧
    Config.initializeDispatch (some "http://c") (some "80") =
      Config.Strategy.fromConfigService :=
  ⟨(initialize_source_selection none none).1 rfl rfl,
    (initialize_source_selection none (some "80")).2.1 rfl (by decide),
    (initialize_source_selection (some "http://c") (some "80")).2.2 (by decide)⟩

/-- Claim C3: within one attempt, absence of the `settings:list` relation
yields the retryable `DiscoveryProtocolError` (`noSettingsLink`); a falsy
(absent or empty) required top-level settings field yields a retryable
`MissingSettingError` naming that field (checked in source order); an absent
or incomplete `device-management` object yields a retryable
`MissingSettingError` for `device-management`; and every per-attempt failure
is retried uniformly: with budget `n + 2`, a failed attempt `k` continues the
run at `k + 1` with budget `n + 1` after one wait, independently of which
error occurred. -/
theorem attempt_errors_are_retryable :
    (∀ (configUrl port : String) (w : AttemptWorld) (d : DiscoveryResource),
      w.discovery = Except.ok d → d.links.lookup "settings:list" = none →
      Config.oneAttempt configUrl port w = Except.error AttemptError.noSettingsLink) ∧
    (∀ (configUrl port : String) (w : AttemptWorld) (d : DiscoveryResource)
        (link : HalLink) (cs : ConfigSettings),
      w.discovery = Except.ok d → d.links.lookup "settings:list" = some link →
      w.fetchSettings (configUrl ++ link.href) = Except.ok cs →
      Config.oneAttempt configUrl port w = Config.validateAndBuild port cs) ∧
    (∀ (port : String) (cs : ConfigSettings),
      truthy cs.iotHubConnStr = false →
      Config.validateAndBuild port cs =
        Except.error (AttemptError.missingSetting "iotHubConnStr")) ∧
    (∀ (port : String) (cs : ConfigSettings),
      truthy cs.iotHubConnStr = true → truthy cs.loginUrl = false →
      Config.validateAndBuild port cs =
        Except.error (AttemptError.missingSetting "loginUrl")) ∧
    (∀ (port : String) (cs : ConfigSettings),
      truthy cs.iotHubConnStr = true → truthy cs.loginUrl = true →
      truthy cs.mongoUri = false →
      Config.validateAndBuild port cs =
        Except.error (AttemptError.missingSetting "mongoUri")) ∧
    (∀ (port : String) (cs : ConfigSettings),
      truthy cs.iotHubConnStr = true → truthy cs.loginUrl = true →
      truthy cs.mongoUri = true → truthy cs.sessionSecret = false →
      Config.validateAndBuild port cs =
        Except.error (AttemptError.missingSetting "sessionSecret")) ∧
    (∀ (port : String) (cs : ConfigSettings),
      truthy cs.iotHubConnStr = true → truthy cs.loginUrl = true →
      truthy cs.mongoUri = true → truthy cs.sessionSecret = true →
      (cs.deviceManagement = none ∨ ∃ dm, cs.deviceManagement = some dm ∧
        (truthy dm.consoleReporting = false ∨ truthy dm.logLevel = false)) →
      Config.validateAndBuild port cs =
        Except.error (AttemptError.missingSetting "device-management")) ∧
    (∀ (configUrl port : String) (w : Nat → AttemptWorld) (k n : Nat) (e : AttemptError),
      Config.oneAttempt configUrl port (w k) = Except.error e →
      Config.serviceLoop configUrl port w k (n + 2) =
        { outcome := (Config.serviceLoop configUrl port w (k + 1) (n + 1)).outcome
          attempts := (Config.serviceLoop configUrl port w (k + 1) (n + 1)).attempts + 1
          waits := (Config.serviceLoop configUrl port w (k + 1) (n + 1)).waits + 1 }) := by
  refine ⟨?_, ?_, ?_, ?_, ?_, ?_, ?_, ?_⟩
  · intro configUrl port w d hd hlink
    simp [Config.oneAttempt, hd, hlink]
  · intro configUrl port w d link cs hd hlink hcs
    simp [Config.oneAttempt, hd, hlink, hcs]
  · intro port cs h
    simp [Config.validateAndBuild, h]
  · intro port cs h1 h2
    simp [Config.validateAndBuild, h1, h2]
  · intro port cs h1 h2 h3
    simp [Config.validateAndBuild, h1, h2, h3]
  · intro port cs h1 h2 h3 h4
    simp [Config.validateAndBuild, h1, h2, h3, h4]
  · intro port cs h1 h2 h3 h4 hdm
    rcases hdm with hnone | ⟨dm, hsome, hfalsy⟩
    · simp [Config.validateAndBuild, h1, h2, h3, h4, hnone]
    · rcases hfalsy with hcr | hll
      · simp [Config.validateAndBuild, h1, h2, h3, h4, hsome, hcr]
      · simp [Config.validateAndBuild, h1, h2, h3, h4, hsome, hll]
  · intro configUrl port w k n e h
    exact serviceLoop_err_step configUrl port w k n e h

theorem attempt_errors_are_retryable_witness :
    Config.oneAttempt "u" "p" noLinkWorld = Except.error AttemptError.noSettingsLink ∧
    Config.validateAndBuild "p" ⟨some "H", some "L", some "M", none, none⟩ =
      Except.error (AttemptError.missingSetting "sessionSecret") :=
  ⟨attempt_errors_are_retryable.1 "u" "p" noLinkWorld ⟨[]⟩ rfl rfl,
    (attempt_errors_are_retryable.2.2.2.2.2.1) "p"
      ⟨some "H", some "L", some "M", none, none⟩ (by decide) (by decide) (by decide) rfl⟩

/-- Claim C4: a fully successful discovery attempt publishes a `Config` whose
`Auth` holds the settings resource's `loginUrl`, `mongoUri` and
`sessionSecret` and whose `Port` is the caller-supplied override; a
first-attempt success ends the run after one attempt and publishes the
singleton; file and environment resolutions always publish `Auth = none`. -/
theorem published_auth_and_port :
    (∀ (port : String) (cs : ConfigSettings) (c : Config),
      Config.validateAndBuild port cs = Except.ok c →
      c.Port = port ∧
      c.Auth = some ⟨cs.loginUrl.getD "", cs.mongoUri.getD "", cs.sessionSecret.getD ""⟩) ∧
    (∀ (configUrl port : String) (w : Nat → AttemptWorld) (st : ConfigState) (c : Config),
      Config.oneAttempt configUrl port (w 0) = Except.ok c →
      Config.initializeFromConfigService configUrl port w st =
        ((Except.ok c, some c), 1, 0)) ∧
    (∀ (file : Option Config.UserConfig) (st : ConfigState) (c : Config),
      (Config.initializeFromFile file st).1 = Except.ok c → c.Auth = none) ∧
    (∀ (connStr : String) (port : Option String) (st : ConfigState) (c : Config),
      (Config.initializeFromEnvironment connStr port st).1 = Except.ok c →
      c.Auth = none) := by
  refine ⟨?_, ?_, ?_, ?_⟩
  · intro port cs c h
    unfold Config.validateAndBuild at h
    repeat' split at h
    all_goals first
      | (obtain rfl := Except.ok.inj h; exact ⟨rfl, rfl⟩)
      | exact absurd h (by simp)
  · intro configUrl port w st c h
    have := serviceLoop_ok configUrl port w 0 Config.numRetriesInit c h
    simp [Config.initializeFromConfigService, this]
  · intro file st c h
    match file with
    | none => exact absurd h (by simp [Config.initializeFromFile])
    | some uc =>
      by_cases ht : testHostName uc.IOTHUB_CONNECTION_STRING
      · rw [initializeFromFile_some_ok uc st ht] at h
        obtain rfl := Except.ok.inj h
        rfl
      · rw [initializeFromFile_some_err uc st (by simpa using ht)] at h
        exact absurd h (by simp)
  · intro connStr port st c h
    obtain rfl := Except.ok.inj h
    rfl

theorem published_auth_and_port_witness :
    Config.initializeFromConfigService "u" "p" (fun _ => okWorld) none =
      ((Except.ok ⟨"H", "server", "info", "p", some ⟨"L", "M", "S"⟩⟩,
        some ⟨"H", "server", "info", "p", some ⟨"L", "M", "S"⟩⟩), 1, 0) :=
  published_auth_and_port.2.1 "u" "p" (fun _ => okWorld) none
    ⟨"H", "server", "info", "p", some ⟨"L", "M", "S"⟩⟩ rfl

/-- Claim C5: `initializeFromFile` on a loaded document fails with
`InvalidConnectionStringError` exactly when the connection-string field does
not match the case-insensitive pattern `(^|;)HostName=`; `hostname=abc`
passes and `Foo=bar` fails. -/
theorem file_connection_validation :
    (∀ (uc : Config.UserConfig) (st : ConfigState),
      (Config.initializeFromFile (some uc) st).1 =
          Except.error ConfigError.invalidConnectionString ↔
        testHostName uc.IOTHUB_CONNECTION_STRING = false) ∧
    testHostName "hostname=abc" = true ∧
    testHostName "Foo=bar" = false := by
  refine ⟨?_, by decide, by decide⟩
  intro uc st
  by_cases ht : testHostName uc.IOTHUB_CONNECTION_STRING
  · rw [initializeFromFile_some_ok uc st ht]
    simp [ht]
  · rw [initializeFromFile_some_err uc st (by simpa using ht)]
    simp [ht]

theorem file_connection_validation_witness :
    (Config.initializeFromFile (some ⟨"Foo=bar", none, none, none⟩) none).1 =
      Except.error ConfigError.invalidConnectionString :=
  (file_connection_validation.1 ⟨"Foo=bar", none, none, none⟩ none).mpr (by decide)

/-- Counterexample to claim C6: a file document supplying all three tunables,
with `CONSOLE_REPORTING` the empty string, yields `"both"` rather than the
literal supplied value `""` (defaulting is the JS `||`, driven by falsiness). -/
theorem file_literal_empty_counterexample :
    ((Config.initializeFromFile (some ⟨"HostName=h", some "", some "lvl", some "80"⟩)
        none).1.map Config.ConsoleReporting) = Except.ok "both" ∧
    (Except.ok "both" : Except ConfigError String) ≠ Except.ok "" := by
  refine ⟨rfl, ?_⟩
  intro h
  exact absurd (Except.ok.inj h) (by decide)

/-- Claim C6 (amended): for every loaded file document with a valid
connection string, `initializeFromFile` yields `"both"` / `"trace"` /
`"3003"` when `CONSOLE_REPORTING` / `LOG_LEVEL` / `PORT` is omitted, and
yields the literal supplied values when none of the three is omitted and
none is the empty string. -/
theorem file_defaults_amended (uc : Config.UserConfig) (st : ConfigState) (c : Config)
    (h : (Config.initializeFromFile (some uc) st).1 = Except.ok c) :
    (uc.CONSOLE_REPORTING = none → c.ConsoleReporting = "both") ∧
    (uc.LOG_LEVEL = none → c.LogLevel = "trace") ∧
    (uc.PORT = none → c.Port = "3003") ∧
    (∀ v, uc.CONSOLE_REPORTING = some v → v ≠ "" → c.ConsoleReporting = v) ∧
    (∀ v, uc.LOG_LEVEL = some v → v ≠ "" → c.LogLevel = v) ∧
    (∀ v, uc.PORT = some v → v ≠ "" → c.Port = v) := by
  by_cases ht : testHostName uc.IOTHUB_CONNECTION_STRING
  · rw [initializeFromFile_some_ok uc st ht] at h
    obtain rfl := Except.ok.inj h
    refine ⟨?_, ?_, ?_, ?_, ?_, ?_⟩
    · intro hv; simp [jsOr, hv]
    · intro hv; simp [jsOr, hv]
    · intro hv; simp [jsOr, hv]
    · intro v hv hne; simp [jsOr, hv, hne]
    · intro v hv hne; simp [jsOr, hv, hne]
    · intro v hv hne; simp [jsOr, hv, hne]
  · rw [initializeFromFile_some_err uc st (by simpa using ht)] at h
    exact absurd h (by simp)

theorem file_defaults_amended_witness :
    (⟨"HostName=h", "server", "trace", "80", none⟩ : Config).LogLevel = "trace" ∧
    (⟨"HostName=h", "server", "trace", "80", none⟩ : Config).ConsoleReporting = "server" :=
  ⟨(file_defaults_amended ⟨"HostName=h", some "server", none, some "80"⟩ none
      ⟨"HostName=h", "server", "trace", "80", none⟩ rfl).2.1 rfl,
    (file_defaults_amended ⟨"HostName=h", some "server", none, some "80"⟩ none
      ⟨"HostName=h", "server", "trace", "80", none⟩ rfl).2.2.2.1 "server" rfl (by decide)⟩

/-- Counterexample to claim C7: `initializeFromEnvironment` invoked with the
empty-string port yields port `"3003"`, not the supplied value verbatim
(the source applies `process.env.PORT || '3003'`). -/
theorem environment_port_counterexample :
    ((Config.initializeFromEnvironment "cs" (some "") none).1.map Config.Port) =
      Except.ok "3003" ∧
    (Except.ok "3003" : Except ConfigError String) ≠ Except.ok "" := by
  refine ⟨rfl, ?_⟩
  intro h
  exact absurd (Except.ok.inj h) (by decide)

/-- Claim C7 (amended): `initializeFromEnvironment` performs no inspection or
validation of the connection string (it succeeds for every value, stored
verbatim), always sets `ConsoleReporting` to `"both"` and `LogLevel` to
`"trace"`, and sets `Port` verbatim to the supplied value when that value is
non-empty; an absent or empty port defaults to `"3003"`. -/
theorem environment_resolution_amended (connStr : String) (port : Option String)
    (st : ConfigState) :
    (Config.initializeFromEnvironment connStr port st).1 =
      Except.ok ⟨connStr, "both", "trace", jsOr port "3003", none⟩ ∧
    (∀ p, port = some p → p ≠ "" →
      (Config.initializeFromEnvironment connStr port st).1.map Config.Port =
        Except.ok p) := by
  refine ⟨rfl, ?_⟩
  intro p hp hne
  simp [Config.initializeFromEnvironment, Except.map, jsOr, hp, hne]

theorem environment_resolution_amended_witness :
    (Config.initializeFromEnvironment "x" (some "80") none).1.map Config.Port =
      Except.ok "80" :=
  (environment_resolution_amended "x" (some "80") none).2 "80" rfl (by decide)

/-- Claim C8: `get` fails with `NotInitializedError` on the uninitialized
state, is pure (a function of the state alone, returning the stored value
unchanged on every call), and after a successful resolution of any of the
three strategies returns exactly the configuration that resolution
published. -/
theorem get_lifecycle :
    Config.get (none : ConfigState) = Except.error ConfigError.notInitialized ∧
    (∀ c : Config, Config.get (some c) = Except.ok c) ∧
    (∀ (file : Option Config.UserConfig) (st : ConfigState) (c : Config),
      (Config.initializeFromFile file st).1 = Except.ok c →
      Config.get (Config.initializeFromFile file st).2 = Except.ok c) ∧
    (∀ (connStr : String) (port : Option String) (st : ConfigState),
      Config.get (Config.initializeFromEnvironment connStr port st).2 =
        (Config.initializeFromEnvironment connStr port st).1) ∧
    (∀ (configUrl svcPort : String) (w : Nat → AttemptWorld) (st : ConfigState) (c : Config),
      (Config.initializeFromConfigService configUrl svcPort w st).1.1 = Except.ok c →
      Config.get (Config.initializeFromConfigService configUrl svcPort w st).1.2 =
        Except.ok c) := by
  refine ⟨rfl, fun c => rfl, ?_, fun connStr port st => rfl, ?_⟩
  · intro file st c h
    match file with
    | none => exact absurd h (by simp [Config.initializeFromFile])
    | some uc =>
      by_cases ht : testHostName uc.IOTHUB_CONNECTION_STRING
      · rw [initializeFromFile_some_ok uc st ht] at h ⊢
        obtain rfl := Except.ok.inj h
        rfl
      · rw [initializeFromFile_some_err uc st (by simpa using ht)] at h
        exact absurd h (by simp)
  · intro configUrl svcPort w st c h
    cases hout : (Config.serviceLoop configUrl svcPort w 0 Config.numRetriesInit).outcome with
    | ok c' =>
      simp [Config.initializeFromConfigService, hout] at h ⊢
      simp [Config.get, h]
    | error e =>
      simp [Config.initializeFromConfigService, hout] at h

/-- A successful file resolution publishes exactly the returned value. -/
theorem get_lifecycle_witness :
    Config.get (Config.initializeFromFile
        (some ⟨"HostName=h", none, none, none⟩) none).2 =
      Except.ok ⟨"HostName=h", "both", "trace", "3003", none⟩ :=
  get_lifecycle.2.2.1 (some ⟨"HostName=h", none, none, none⟩) none
    ⟨"HostName=h", "both", "trace", "3003", none⟩ rfl

/-- Claim C9: every failed resolution leaves the singleton unchanged — a
missing file, an invalid connection string, and an exhausted discovery retry
budget all return the prior state — and the singleton is assigned exactly at
a fully successful resolution, which publishes the returned configuration. -/
theorem failed_resolution_preserves_singleton :
    (∀ st : ConfigState, (Config.initializeFromFile none st).2 = st) ∧
    (∀ (uc : Config.UserConfig) (st : ConfigState),
      testHostName uc.IOTHUB_CONNECTION_STRING = false →
      (Config.initializeFromFile (some uc) st).2 = st) ∧
    (∀ (file : Option Config.UserConfig) (st : ConfigState) (e : ConfigError),
      (Config.initializeFromFile file st).1 = Except.error e →
      (Config.initializeFromFile file st).2 = st) ∧
    (∀ (configUrl port : String) (w : Nat → AttemptWorld) (st : ConfigState)
        (e : ConfigError),
      (Config.initializeFromConfigService configUrl port w st).1.1 = Except.error e →
      (Config.initializeFromConfigService configUrl port w st).1.2 = st) ∧
    (∀ (file : Option Config.UserConfig) (st : ConfigState) (c : Config),
      (Config.initializeFromFile file st).1 = Except.ok c →
      (Config.initializeFromFile file st).2 = some c) ∧
    (∀ (configUrl port : String) (w : Nat → AttemptWorld) (st : ConfigState) (c : Config),
      (Config.initializeFromConfigService configUrl port w st).1.1 = Except.ok c →
      (Config.initializeFromConfigService configUrl port w st).1.2 = some c) := by
  refine ⟨fun st => rfl, ?_, ?_, ?_, ?_, ?_⟩
  · intro uc st ht
    rw [initializeFromFile_some_err uc st ht]
  · intro file st e h
    match file with
    | none => rfl
    | some uc =>
      by_cases ht : testHostName uc.IOTHUB_CONNECTION_STRING
      · rw [initializeFromFile_some_ok uc st ht] at h
        exact absurd h (by simp)
      · rw [initializeFromFile_some_err uc st (by simpa using ht)]
  · intro configUrl port w st e h
    cases hout : (Config.serviceLoop configUrl port w 0 Config.numRetriesInit).outcome with
    | ok c' => simp [Config.initializeFromConfigService, hout] at h
    | error e' => simp [Config.initializeFromConfigService, hout]
  · intro file st c h
    match file with
    | none => exact absurd h (by simp [Config.initializeFromFile])
    | some uc =>
      by_cases ht : testHostName uc.IOTHUB_CONNECTION_STRING
      · rw [initializeFromFile_some_ok uc st ht] at h ⊢
        obtain rfl := Except.ok.inj h
        rfl
      · rw [initializeFromFile_some_err uc st (by simpa using ht)] at h
        exact absurd h (by simp)
  · intro configUrl port w st c h
    cases hout : (Config.serviceLoop configUrl port w 0 Config.numRetriesInit).outcome with
    | ok c' =>
      simp [Config.initializeFromConfigService, hout] at h ⊢
      simp [h]
    | error e' => simp [Config.initializeFromConfigService, hout] at h

theorem failed_resolution_preserves_singleton_witness :
    (Config.initializeFromConfigService "u" "p" (fun _ => noLinkWorld)
      (some ⟨"old", "both", "trace", "3003", none⟩)).1.2 =
      some ⟨"old", "both", "trace", "3003", none⟩ :=
  failed_resolution_preserves_singleton.2.2.2.1 "u" "p" (fun _ => noLinkWorld)
    (some ⟨"old", "both", "trace", "3003", none⟩)
    (ConfigError.serviceUnavailable
      "Could not initialize from Config Service: Config service does not provide settings:list")
    rfl

/-- Claim C10: defaulting is driven by JS falsiness, not absence: a file
document supplying `CONSOLE_REPORTING`, `LOG_LEVEL` or `PORT` as the empty
string yields `"both"`, `"trace"`, `"3003"` respectively, and
`initializeFromEnvironment` with an absent or empty port yields port
`"3003"`. -/
theorem falsiness_defaulting :
    (∀ (uc : Config.UserConfig) (st : ConfigState) (c : Config),
      (Config.initializeFromFile (some uc) st).1 = Except.ok c →
      (uc.CONSOLE_REPORTING = some "" → c.ConsoleReporting = "both") ∧
      (uc.LOG_LEVEL = some "" → c.LogLevel = "trace") ∧
      (uc.PORT = some "" → c.Port = "3003")) ∧
    (∀ (connStr : String) (st : ConfigState),
      (Config.initializeFromEnvironment connStr none st).1.map Config.Port =
        Except.ok "3003") ∧
    (∀ (connStr : String) (st : ConfigState),
      (Config.initializeFromEnvironment connStr (some "") st).1.map Config.Port =
        Except.ok "3003") := by
  refine ⟨?_, fun connStr st => rfl, fun connStr st => rfl⟩
  intro uc st c h
  by_cases ht : testHostName uc.IOTHUB_CONNECTION_STRING
  · rw [initializeFromFile_some_ok uc st ht] at h
    obtain rfl := Except.ok.inj h
    refine ⟨?_, ?_, ?_⟩
    · intro hv; simp [jsOr, hv]
    · intro hv; simp [jsOr, hv]
    · intro hv; simp [jsOr, hv]
  · rw [initializeFromFile_some_err uc st (by simpa using ht)] at h
    exact absurd h (by simp)

theorem falsiness_defaulting_witness :
    (⟨"HostName=h", "both", "trace", "3003", none⟩ : Config).ConsoleReporting = "both" :=
  (falsiness_defaulting.1 ⟨"HostName=h", some "", some "", some ""⟩ none
    ⟨"HostName=h", "both", "trace", "3003", none⟩ rfl).1 rfl
